import Mathlib

/-!
Shallow embedding of `src/server.js` (an Express server that uploads a
document, extracts its text through a remote Document AI call, and issues
three sequential Vertex AI generation calls).  The file contains three
near-duplicate handler variants; the primary one (single `GOOGLE_CREDENTIALS`
blob, lines 1-202) is modelled as `handleUpload`, and the second variant
(discrete env-var credentials, lines 206-319) as `handleUploadV2`.

Remote calls are modelled as function parameters: extraction as
`UploadedFile -> Except String (Option String)` (a transport error carrying
the diagnostic detail, or the optional `document?.text` field), and the
generation client as `String -> Except String GenResult` (a transport error
carrying the diagnostic detail, or the resolved response object).  The
handler result records the HTTP response, whether the extraction client was
invoked, and every prompt sent to the generation client, in order.
-/

namespace Server

/-- `req.file` as populated by multer: raw buffer, declared mime type,
original name and size (server.js lines 114-131). -/
structure UploadedFile where
  buffer : List Nat
  mimetype : String
  originalname : String
  size : Nat
deriving DecidableEq

/-- The part of an incoming upload request the handler inspects: the
optional file part (`req.file`). -/
structure Request where
  file : Option UploadedFile
deriving DecidableEq

/-- Parsed service-account credentials; the sanity check at lines 44-47
looks at `client_email` and `private_key`, which may be absent. -/
structure ServiceAccountCredentials where
  client_email : Option String
  private_key : Option String
deriving DecidableEq

/-- One `parts` entry of a Vertex candidate; `text` may be absent. -/
structure GenPart where
  text : Option String
deriving DecidableEq

/-- The `content` object of a Vertex candidate. -/
structure GenContent where
  parts : List GenPart
deriving DecidableEq

/-- One entry of `response.candidates`; `content` may be absent. -/
structure GenCandidate where
  content : Option GenContent
deriving DecidableEq

/-- The `response` object of a resolved `generateContent` call;
`candidates` may be absent. -/
structure GenResponse where
  candidates : Option (List GenCandidate)
deriving DecidableEq

/-- The value resolved by `model.generateContent`; its `response` field may
be absent (the code guards every level with optional chaining). -/
structure GenResult where
  response : Option GenResponse
deriving DecidableEq

end Server

namespace Server

/-- JSON response bodies produced by the upload handlers. -/
inductive Body where
  | errorOnly (error : String)
  | errorDetail (error : String) (detail : String)
  | analysis (text summary keyTerms riskAssessment : String)
deriving DecidableEq

/-- An HTTP response: status code plus JSON body. -/
structure HttpResponse where
  status : Nat
  body : Body
deriving DecidableEq

/-- Observable outcome of one upload request: the HTTP response, whether
the extraction client was invoked, and the prompts sent to the generation
client, in order. -/
structure HandlerOutcome where
  response : HttpResponse
  extractionCalled : Bool
  genPrompts : List String
deriving DecidableEq

end Server

namespace Server

/-- Optional chaining `r?.response?.candidates?.[0]?.content?.parts?.[0]?.text`
(server.js lines 162, 166, 187) through the resolved
generation result, yielding the first text part of the first candidate
when every level is present. -/
def candidateText (r : GenResult) : Option String :=
  match r.response with
  | none => none
  | some resp =>
    match resp.candidates with
    | none => none
    | some cands =>
      match cands.head? with
      | none => none
      | some c =>
        match c.content with
        | none => none
        | some content =>
          match content.parts.head? with
          | none => none
          | some p => p.text

/-- JavaScript `x || fallback` applied to an optionally-present string:
absent values AND the empty string are falsy, so both yield the fallback. -/
def orFallback (t : Option String) (fallback : String) : String :=
  match t with
  | none => fallback
  | some s => if s = "" then fallback else s

/-- JavaScript `text.trim()`: strips leading and trailing whitespace, at
the character level (the handlers only ever test the result for
emptiness). -/
def trimmed (s : String) : String :=
  ⟨((s.data.dropWhile Char.isWhitespace).reverse.dropWhile Char.isWhitespace).reverse⟩

/-- Summary prompt template (server.js line 160). -/
def summaryPrompt (text : String) : String :=
  "Summarize the following legal document:\n\n" ++ text

/-- Key-terms prompt template (server.js line 164). -/
def keyTermsPrompt (text : String) : String :=
  "Extract key terms and their values in concise bullet points:\n\n" ++ text

/-- The fixed part of the risk-assessment template literal
(server.js lines 168-185), up to the interpolated document text. -/
def riskPromptHeader : String :=
  "You are a legal risk analysis expert.\n\nAnalyze the following legal document and generate a clear risk assessment.\n\nFollow this EXACT structured format:\n\n- Risk Item: <short title>\n  Description: <what could go wrong>\n  Severity: Low/Medium/High\n\nExample:\n- Risk Item: Ambiguous Payment Terms\n  Description: Payment due dates are unclear, which may cause disputes between parties.\n  Severity: Medium\n\nNow analyze this document:\n\n"

/-- Risk-assessment prompt (server.js lines 168-185): the fixed header with
the extracted text interpolated at the end. -/
def riskPrompt (text : String) : String :=
  riskPromptHeader ++ text

/-- The primary upload handler, `app.post('/api/upload')` of the first
variant (server.js lines 96-199).  The `!documentai` and `!model` guards at
lines 106-112 are statically unreachable (both module-level constants are
objects whenever the module loads), so they are not modelled.  Control flow:
missing file -> 400; unset credentials -> 500 before any remote call;
extraction transport error -> 500 with detail; empty trimmed text -> 400;
then three sequential generation calls, any transport error -> 500 with
detail, otherwise 200 with the four-field analysis body. -/
def handleUpload (credentials : Option ServiceAccountCredentials)
    (req : Request)
    (extract : UploadedFile → Except String (Option String))
    (gen : String → Except String GenResult) : HandlerOutcome :=
  match req.file with
  | none => ⟨⟨400, .errorOnly "No file uploaded"⟩, false, []⟩
  | some file =>
    match credentials with
    | none => ⟨⟨500, .errorOnly "Server misconfigured: missing credentials"⟩, false, []⟩
    | some _ =>
      match extract file with
      | .error detail =>
        ⟨⟨500, .errorDetail "Document AI processing failed" detail⟩, true, []⟩
      | .ok docText =>
        let text := docText.getD ""
        if trimmed text = "" then
          ⟨⟨400, .errorOnly "Document contained no extractable text."⟩, true, []⟩
        else
          let p1 := summaryPrompt text
          match gen p1 with
          | .error detail =>
            ⟨⟨500, .errorDetail "Vertex AI generation failed" detail⟩, true, [p1]⟩
          | .ok r1 =>
            let summary := orFallback (candidateText r1) "Summary not generated"
            let p2 := keyTermsPrompt text
            match gen p2 with
            | .error detail =>
              ⟨⟨500, .errorDetail "Vertex AI generation failed" detail⟩, true, [p1, p2]⟩
            | .ok r2 =>
              let keyTerms := orFallback (candidateText r2) "Key terms not extracted"
              let p3 := riskPrompt text
              match gen p3 with
              | .error detail =>
                ⟨⟨500, .errorDetail "Vertex AI generation failed" detail⟩, true, [p1, p2, p3]⟩
              | .ok r3 =>
                let riskAssessment := orFallback (candidateText r3) "Risk assessment not generated"
                ⟨⟨200, .analysis text summary keyTerms riskAssessment⟩, true, [p1, p2, p3]⟩

/-- The upload handler of the second variant (server.js lines 262-316).
It performs NO missing-file check: `req.file.buffer` on a request without a
file throws a TypeError that the blanket catch turns into a 500
`Failed to analyze document` response.  Likewise every transport error of
either remote call lands in the same blanket catch. -/
def handleUploadV2 (req : Request)
    (extract : UploadedFile → Except String (Option String))
    (gen : String → Except String GenResult) : HandlerOutcome :=
  match req.file with
  | none => ⟨⟨500, .errorOnly "Failed to analyze document"⟩, false, []⟩
  | some file =>
    match extract file with
    | .error _ => ⟨⟨500, .errorOnly "Failed to analyze document"⟩, true, []⟩
    | .ok docText =>
      let text := docText.getD ""
      if trimmed text = "" then
        ⟨⟨400, .errorOnly "Document contained no extractable text."⟩, true, []⟩
      else
        let p1 := "Summarize the following legal document:\n\n" ++ text
        match gen p1 with
        | .error _ => ⟨⟨500, .errorOnly "Failed to analyze document"⟩, true, [p1]⟩
        | .ok r1 =>
          let summary := orFallback (candidateText r1) "Summary not generated"
          let p2 := "Extract key terms and their values in bullet points:\n\n" ++ text
          match gen p2 with
          | .error _ => ⟨⟨500, .errorOnly "Failed to analyze document"⟩, true, [p1, p2]⟩
          | .ok r2 =>
            let keyTerms := orFallback (candidateText r2) "Key terms not extracted"
            let p3 := "Provide a risk assessment in this format:\n- Risk Item: Description (Severity: Low/Medium/High)\n\nFor this legal document:\n\n" ++ text
            match gen p3 with
            | .error _ => ⟨⟨500, .errorOnly "Failed to analyze document"⟩, true, [p1, p2, p3]⟩
            | .ok r3 =>
              let riskAssessment := orFallback (candidateText r3) "Risk assessment not generated"
              ⟨⟨200, .analysis text summary keyTerms riskAssessment⟩, true, [p1, p2, p3]⟩

end Server

namespace Server

/-- The replacement `blob.replace(/\\n/g, newline)` (server.js line 41) at the
character level: a leftmost scan replacing each literal backslash-n pair with a
newline character. -/
def normChars : List Char → List Char
  | [] => []
  | '\\' :: 'n' :: rest => '\n' :: normChars rest
  | c :: cs => c :: normChars cs

/-- The same replacement, packaged on strings. -/
def normalizeNewlines (s : String) : String :=
  ⟨normChars s.data⟩

/-- Credential loading from the `GOOGLE_CREDENTIALS` blob
(server.js lines 34-51).  `jsonParse` models `JSON.parse`, with `none`
standing for a thrown SyntaxError.  Returns the resulting credentials
(`none` models the `credentials = null` of the outer catch) together with
the list of strings handed to `JSON.parse`, in order. -/
def loadCredentials (jsonParse : String → Option ServiceAccountCredentials)
    (blob : String) : Option ServiceAccountCredentials × List String :=
  match jsonParse blob with
  | some c => (some c, [blob])
  | none =>
    let fixed := normalizeNewlines blob
    match jsonParse fixed with
    | some c => (some c, [blob, fixed])
    | none => (none, [blob, fixed])

/-- The environment variables the first variant reads
(server.js lines 24-28). -/
structure Env where
  PROJECT_ID : Option String
  PROCESSOR_ID : Option String
  VERTEX_MODEL : Option String
deriving DecidableEq

/-- Config value `process.env.PROJECT_ID || "genai-471818"` (server.js line 24). -/
def projectId (env : Env) : String :=
  env.PROJECT_ID.getD "genai-471818"

/-- Config value `process.env.VERTEX_MODEL` with its default
(server.js line 28); read but only ever reported by the ping endpoint. -/
def vertexModelConfig (env : Env) : String :=
  env.VERTEX_MODEL.getD "gemini-2.5-flash-lite"

/-- The model name passed to `vertexAI.getGenerativeModel`
(server.js lines 86-88): the hard-coded literal, independent of the
environment. -/
def generativeModelName (_env : Env) : String :=
  "gemini-2.5-flash-lite"

/-- Body of the `GET /api/ping` response (server.js lines 91-93). -/
structure PingBody where
  status : String
  project : String
  vertexModel : String
deriving DecidableEq

/-- Handler for `GET /api/ping` (server.js lines 91-93). -/
def pingResponse (env : Env) : PingBody :=
  ⟨"ok", projectId env, vertexModelConfig env⟩

/-- One request issued to the generation endpoint: the model it is
addressed to and the prompt it carries. -/
structure GenRequest where
  model : String
  prompt : String
deriving DecidableEq

/-- The generation requests issued while serving one upload request under
environment `env`: each prompt recorded by `handleUpload`, addressed to the
model constructed at startup (server.js lines 86-88, 155). -/
def uploadGenRequests (env : Env)
    (credentials : Option ServiceAccountCredentials) (req : Request)
    (extract : UploadedFile → Except String (Option String))
    (gen : String → Except String GenResult) : List GenRequest :=
  (handleUpload credentials req extract gen).genPrompts.map
    (fun p => ⟨generativeModelName env, p⟩)

/-- Boolean check that `t` is a prefix of `s` (character lists). -/
def hasPref : List Char → List Char → Bool
  | [], _ => true
  | _ :: _, [] => false
  | a :: as, b :: bs => a = b && hasPref as bs

/-- Boolean substring search: does `t` occur contiguously in `s`? -/
def hasSub (t : List Char) : List Char → Bool
  | [] => hasPref t []
  | c :: s => hasPref t (c :: s) || hasSub t s

/-- `t` occurs contiguously inside `s` (string containment, via the
underlying character lists). -/
def substrOf (t s : String) : Prop :=
  ∃ a b, a ++ t.data ++ b = s.data

end Server

namespace Server

/-- Concrete fixture: a parsed credential object. -/
def sampleCreds : ServiceAccountCredentials :=
  ⟨some "svc@genai-471818.iam.gserviceaccount.com", some "key"⟩

/-- Concrete fixture: an uploaded file. -/
def sampleFile : UploadedFile :=
  ⟨[37, 80, 68, 70], "application/pdf", "lease.pdf", 4⟩

/-- Concrete fixture: a request carrying `sampleFile`. -/
def reqWithFile : Request := ⟨some sampleFile⟩

/-- Concrete fixture: a request with no file part. -/
def reqNoFile : Request := ⟨none⟩

/-- Concrete fixture: extraction succeeding with fixed non-empty text. -/
def extractLease : UploadedFile → Except String (Option String) :=
  fun _ => .ok (some "Tenant shall pay rent by the 1st.")

/-- Concrete fixture: extraction succeeding with whitespace-only text. -/
def extractBlank : UploadedFile → Except String (Option String) :=
  fun _ => .ok (some "  \n ")

/-- Concrete fixture: extraction failing at the transport level. -/
def extractFail : UploadedFile → Except String (Option String) :=
  fun _ => .error "processor unavailable"

/-- Concrete fixture: a generation client answering every prompt with a
well-formed single-candidate response. -/
def genOk : String → Except String GenResult :=
  fun _ => .ok ⟨some ⟨some [⟨some ⟨[⟨some "generated text"⟩]⟩⟩]⟩⟩

/-- Concrete fixture: a generation client answering every prompt with a
response that has no candidates field. -/
def genNoCandidates : String → Except String GenResult :=
  fun _ => .ok ⟨some ⟨none⟩⟩

/-- Concrete fixture: a generation client failing every call at the
transport level. -/
def genFail : String → Except String GenResult :=
  fun _ => .error "quota exceeded"

end Server

namespace Server

/-- Concrete fixture: a parse function that models `JSON.parse` succeeding
only on the blob whose escaped newline has been repaired. -/
def credFixtureParse : String → Option ServiceAccountCredentials :=
  fun s => if s = "a\nkey" then some sampleCreds else none

end Server

namespace Server

theorem hasPref_sound : ∀ (t s : List Char), hasPref t s = true → ∃ r, t ++ r = s
  | [], s, _ => ⟨s, rfl⟩
  | _ :: _, [], h => by simp [hasPref] at h
  | a :: as, b :: bs, h => by
    simp [hasPref] at h
    obtain ⟨rfl, h2⟩ := h
    obtain ⟨r, hr⟩ := hasPref_sound as bs h2
    exact ⟨r, by simp [hr]⟩

theorem hasSub_sound (t : List Char) :
    ∀ (s : List Char), hasSub t s = true → ∃ a b, a ++ t ++ b = s
  | [], h => by
    obtain ⟨r, hr⟩ := hasPref_sound t [] (by simpa [hasSub] using h)
    obtain ⟨rfl, rfl⟩ := List.append_eq_nil.mp hr
    exact ⟨[], [], rfl⟩
  | c :: s, h => by
    rcases (Bool.or_eq_true _ _).mp (by simpa [hasSub] using h) with hp | hs
    · obtain ⟨r, hr⟩ := hasPref_sound t _ hp
      exact ⟨[], r, by simp [hr]⟩
    · obtain ⟨a, b, hab⟩ := hasSub_sound t s hs
      exact ⟨c :: a, b, by simp [hab]⟩

/-- A string found inside the risk-prompt header occurs in every risk
prompt, whatever document text is appended. -/
theorem substrOf_riskPrompt_of_header (t : String)
    (h : hasSub t.data riskPromptHeader.data = true) (x : String) :
    substrOf t (riskPrompt x) := by
  obtain ⟨a, b, hab⟩ := hasSub_sound t.data riskPromptHeader.data h
  refine ⟨a, b ++ x.data, ?_⟩
  simp [riskPrompt, String.data_append, ← hab]

/-- The document text itself occurs in its risk prompt. -/
theorem substrOf_text_riskPrompt (x : String) : substrOf x (riskPrompt x) :=
  ⟨riskPromptHeader.data, [], by simp [riskPrompt, String.data_append]⟩

end Server

namespace Server

/-- C4: when credential parsing failed at startup (credentials unset),
every upload request that carries a file part is answered 500 with the
misconfiguration error, the extraction client is not invoked, and no
generation prompt is issued. -/
theorem c4_unset_credentials_rejected (req : Request) (file : UploadedFile)
    (extract : UploadedFile → Except String (Option String))
    (gen : String → Except String GenResult)
    (hfile : req.file = some file) :
    handleUpload none req extract gen =
      ⟨⟨500, .errorOnly "Server misconfigured: missing credentials"⟩, false, []⟩ := by
  simp [handleUpload, hfile]

/-- C4 witness: the misconfiguration rejection at a concrete request. -/
theorem c4_unset_credentials_rejected_witness :
    reqWithFile.file = some sampleFile ∧
    handleUpload none reqWithFile extractLease genOk =
      ⟨⟨500, .errorOnly "Server misconfigured: missing credentials"⟩, false, []⟩ :=
  ⟨rfl, c4_unset_credentials_rejected reqWithFile sampleFile extractLease genOk rfl⟩

/-- C3 counterexample: in the second handler variant, an upload request
with no file part is answered 500 `Failed to analyze document` (the
unchecked `req.file.buffer` access throws into the blanket catch), not 400
`No file uploaded` as the claim states for every handler. -/
theorem c3_counterexample :
    reqNoFile.file = none ∧
    handleUploadV2 reqNoFile extractLease genOk =
      ⟨⟨500, .errorOnly "Failed to analyze document"⟩, false, []⟩ ∧
    (handleUploadV2 reqNoFile extractLease genOk).response.status ≠ 400 :=
  ⟨rfl, rfl, by decide⟩

/-- C3 (amended): for an upload request with no file part, the primary
handler returns 400 with exactly `No file uploaded` and invokes neither
the extraction client nor the generation client; the second variant
instead returns 500 with `Failed to analyze document`, likewise without
invoking either client. -/
theorem c3_missing_file (credentials : Option ServiceAccountCredentials)
    (req : Request)
    (extract extract2 : UploadedFile → Except String (Option String))
    (gen gen2 : String → Except String GenResult)
    (h : req.file = none) :
    handleUpload credentials req extract gen =
      ⟨⟨400, .errorOnly "No file uploaded"⟩, false, []⟩ ∧
    handleUploadV2 req extract2 gen2 =
      ⟨⟨500, .errorOnly "Failed to analyze document"⟩, false, []⟩ := by
  constructor
  · simp [handleUpload, h]
  · simp [handleUploadV2, h]

/-- C3 witness: both missing-file behaviours at a concrete request. -/
theorem c3_missing_file_witness :
    handleUpload (some sampleCreds) reqNoFile extractLease genOk =
      ⟨⟨400, .errorOnly "No file uploaded"⟩, false, []⟩ ∧
    handleUploadV2 reqNoFile extractBlank genFail =
      ⟨⟨500, .errorOnly "Failed to analyze document"⟩, false, []⟩ :=
  c3_missing_file (some sampleCreds) reqNoFile extractLease extractBlank genOk genFail rfl

/-- C1 counterexample: credentials and the file part are present and the
extraction call succeeds with text that is non-empty after trimming, yet
when the first generation call fails at the transport level the handler
answers 500, not 200, after issuing a single generation prompt. -/
theorem c1_counterexample :
    (reqWithFile.file.isSome = true) ∧
    extractLease sampleFile = .ok (some "Tenant shall pay rent by the 1st.") ∧
    trimmed "Tenant shall pay rent by the 1st." ≠ "" ∧
    (handleUpload (some sampleCreds) reqWithFile extractLease genFail).response.status = 500 ∧
    (handleUpload (some sampleCreds) reqWithFile extractLease genFail).response.status ≠ 200 ∧
    (handleUpload (some sampleCreds) reqWithFile extractLease genFail).genPrompts.length = 1 :=
  ⟨rfl, rfl, by decide, by decide, by decide, by decide⟩

/-- C1 (amended): if credentials and the file part are present, extraction
succeeds with text non-empty after trimming, and each of the three
generation calls completes without a transport error, then the handler
returns 200 with a body of exactly the four string fields
text/summary/keyTerms/riskAssessment, and the generation client was
invoked exactly three times, in order: summary prompt, key-terms prompt,
risk prompt. -/
theorem c1_success_pipeline
    (creds : ServiceAccountCredentials) (req : Request) (file : UploadedFile)
    (extract : UploadedFile → Except String (Option String))
    (gen : String → Except String GenResult)
    (docText : Option String) (r1 r2 r3 : GenResult)
    (hfile : req.file = some file)
    (hext : extract file = .ok docText)
    (htrim : trimmed (docText.getD "") ≠ "")
    (h1 : gen (summaryPrompt (docText.getD "")) = .ok r1)
    (h2 : gen (keyTermsPrompt (docText.getD "")) = .ok r2)
    (h3 : gen (riskPrompt (docText.getD "")) = .ok r3) :
    (handleUpload (some creds) req extract gen).response.status = 200 ∧
    (∃ s k r, (handleUpload (some creds) req extract gen).response.body =
      .analysis (docText.getD "") s k r) ∧
    (handleUpload (some creds) req extract gen).genPrompts =
      [summaryPrompt (docText.getD ""), keyTermsPrompt (docText.getD ""),
        riskPrompt (docText.getD "")] := by
  have h : handleUpload (some creds) req extract gen =
      ⟨⟨200, .analysis (docText.getD "")
          (orFallback (candidateText r1) "Summary not generated")
          (orFallback (candidateText r2) "Key terms not extracted")
          (orFallback (candidateText r3) "Risk assessment not generated")⟩, true,
        [summaryPrompt (docText.getD ""), keyTermsPrompt (docText.getD ""),
          riskPrompt (docText.getD "")]⟩ := by
    simp [handleUpload, hfile, hext, htrim, h1, h2, h3]
  rw [h]
  exact ⟨rfl, ⟨_, _, _, rfl⟩, rfl⟩

/-- C1 witness: the full successful pipeline at a concrete request. -/
theorem c1_success_pipeline_witness :
    (handleUpload (some sampleCreds) reqWithFile extractLease genOk).response.status = 200 ∧
    (∃ s k r, (handleUpload (some sampleCreds) reqWithFile extractLease genOk).response.body =
      .analysis "Tenant shall pay rent by the 1st." s k r) ∧
    (handleUpload (some sampleCreds) reqWithFile extractLease genOk).genPrompts =
      [summaryPrompt "Tenant shall pay rent by the 1st.",
        keyTermsPrompt "Tenant shall pay rent by the 1st.",
        riskPrompt "Tenant shall pay rent by the 1st."] :=
  c1_success_pipeline sampleCreds reqWithFile sampleFile extractLease genOk
    (some "Tenant shall pay rent by the 1st.")
    ⟨some ⟨some [⟨some ⟨[⟨some "generated text"⟩]⟩⟩]⟩⟩
    ⟨some ⟨some [⟨some ⟨[⟨some "generated text"⟩]⟩⟩]⟩⟩
    ⟨some ⟨some [⟨some ⟨[⟨some "generated text"⟩]⟩⟩]⟩⟩
    rfl rfl (by decide) rfl rfl rfl

end Server

namespace Server

/-- C2: an upload whose extraction succeeds with text empty after trimming
is answered 400 with exactly the empty-text message and zero generation
prompts; and no 200 analysis response ever carries text that is empty
after trimming. -/
theorem c2_empty_text_short_circuit
    (credentials : Option ServiceAccountCredentials) (req : Request)
    (extract : UploadedFile → Except String (Option String))
    (gen : String → Except String GenResult) :
    (∀ c file docText, credentials = some c → req.file = some file →
      extract file = .ok docText → trimmed (docText.getD "") = "" →
      handleUpload credentials req extract gen =
        ⟨⟨400, .errorOnly "Document contained no extractable text."⟩, true, []⟩) ∧
    (∀ t s k r, (handleUpload credentials req extract gen).response =
        ⟨200, .analysis t s k r⟩ → trimmed t ≠ "") := by
  constructor
  · rintro c file docText rfl hfile hext htrim
    simp [handleUpload, hfile, hext, htrim]
  · intro t s k r h
    rcases hreq : req.file with _ | file
    · simp [handleUpload, hreq] at h
    · rcases credentials with _ | c
      · simp [handleUpload, hreq] at h
      · rcases hext : extract file with d | docText
        · simp [handleUpload, hreq, hext] at h
        · by_cases htrim : trimmed (docText.getD "") = ""
          · simp [handleUpload, hreq, hext, htrim] at h
          · rcases h1 : gen (summaryPrompt (docText.getD "")) with d | r1
            · simp [handleUpload, hreq, hext, htrim, h1] at h
            · rcases h2 : gen (keyTermsPrompt (docText.getD "")) with d | r2
              · simp [handleUpload, hreq, hext, htrim, h1, h2] at h
              · rcases h3 : gen (riskPrompt (docText.getD "")) with d | r3
                · simp [handleUpload, hreq, hext, htrim, h1, h2, h3] at h
                · simp [handleUpload, hreq, hext, htrim, h1, h2, h3] at h
                  obtain ⟨ht, -⟩ := h
                  rw [← ht]
                  exact htrim

/-- C2 witness: whitespace-only extraction at a concrete request yields
the exact 400 body with no generation prompt issued. -/
theorem c2_empty_text_short_circuit_witness :
    handleUpload (some sampleCreds) reqWithFile extractBlank genOk =
      ⟨⟨400, .errorOnly "Document contained no extractable text."⟩, true, []⟩ :=
  (c2_empty_text_short_circuit (some sampleCreds) reqWithFile extractBlank genOk).1
    sampleCreds sampleFile (some "  \n ") rfl rfl rfl (by decide)

/-- C5: when the three generation calls all complete without a transport
error, the request returns 200, and every call whose resolved response
lacks a first candidate with a first text part contributes its
call-site-specific fallback placeholder to the analysis body. -/
theorem c5_structural_fallback
    (creds : ServiceAccountCredentials) (req : Request) (file : UploadedFile)
    (extract : UploadedFile → Except String (Option String))
    (gen : String → Except String GenResult)
    (docText : Option String) (r1 r2 r3 : GenResult)
    (hfile : req.file = some file)
    (hext : extract file = .ok docText)
    (htrim : trimmed (docText.getD "") ≠ "")
    (h1 : gen (summaryPrompt (docText.getD "")) = .ok r1)
    (h2 : gen (keyTermsPrompt (docText.getD "")) = .ok r2)
    (h3 : gen (riskPrompt (docText.getD "")) = .ok r3) :
    (handleUpload (some creds) req extract gen).response.status = 200 ∧
    (∃ s k r, (handleUpload (some creds) req extract gen).response.body =
        .analysis (docText.getD "") s k r ∧
      (candidateText r1 = none → s = "Summary not generated") ∧
      (candidateText r2 = none → k = "Key terms not extracted") ∧
      (candidateText r3 = none → r = "Risk assessment not generated")) := by
  have h : handleUpload (some creds) req extract gen =
      ⟨⟨200, .analysis (docText.getD "")
          (orFallback (candidateText r1) "Summary not generated")
          (orFallback (candidateText r2) "Key terms not extracted")
          (orFallback (candidateText r3) "Risk assessment not generated")⟩, true,
        [summaryPrompt (docText.getD ""), keyTermsPrompt (docText.getD ""),
          riskPrompt (docText.getD "")]⟩ := by
    simp [handleUpload, hfile, hext, htrim, h1, h2, h3]
  rw [h]
  exact ⟨rfl, _, _, _, rfl,
    fun hc => by rw [hc]; rfl,
    fun hc => by rw [hc]; rfl,
    fun hc => by rw [hc]; rfl⟩

/-- C5 witness: a candidate-free response on all three calls at a
concrete request yields 200 with the three fallback placeholders. -/
theorem c5_structural_fallback_witness :
    (handleUpload (some sampleCreds) reqWithFile extractLease genNoCandidates).response.status = 200 ∧
    (∃ s k r, (handleUpload (some sampleCreds) reqWithFile extractLease genNoCandidates).response.body =
        .analysis "Tenant shall pay rent by the 1st." s k r ∧
      (candidateText ⟨some ⟨none⟩⟩ = none → s = "Summary not generated") ∧
      (candidateText ⟨some ⟨none⟩⟩ = none → k = "Key terms not extracted") ∧
      (candidateText ⟨some ⟨none⟩⟩ = none → r = "Risk assessment not generated")) :=
  c5_structural_fallback sampleCreds reqWithFile sampleFile extractLease genNoCandidates
    (some "Tenant shall pay rent by the 1st.") ⟨some ⟨none⟩⟩ ⟨some ⟨none⟩⟩ ⟨some ⟨none⟩⟩
    rfl rfl (by decide) rfl rfl rfl

/-- C6: a transport error on any of the three generation calls yields 500
with the failing call's diagnostic in the detail field, and the body is an
error body, never a partial analysis. -/
theorem c6_generation_transport_error
    (creds : ServiceAccountCredentials) (req : Request) (file : UploadedFile)
    (extract : UploadedFile → Except String (Option String))
    (gen : String → Except String GenResult)
    (docText : Option String)
    (hfile : req.file = some file)
    (hext : extract file = .ok docText)
    (htrim : trimmed (docText.getD "") ≠ "") :
    (∀ d, gen (summaryPrompt (docText.getD "")) = .error d →
      handleUpload (some creds) req extract gen =
        ⟨⟨500, .errorDetail "Vertex AI generation failed" d⟩, true,
          [summaryPrompt (docText.getD "")]⟩) ∧
    (∀ r1 d, gen (summaryPrompt (docText.getD "")) = .ok r1 →
      gen (keyTermsPrompt (docText.getD "")) = .error d →
      handleUpload (some creds) req extract gen =
        ⟨⟨500, .errorDetail "Vertex AI generation failed" d⟩, true,
          [summaryPrompt (docText.getD ""), keyTermsPrompt (docText.getD "")]⟩) ∧
    (∀ r1 r2 d, gen (summaryPrompt (docText.getD "")) = .ok r1 →
      gen (keyTermsPrompt (docText.getD "")) = .ok r2 →
      gen (riskPrompt (docText.getD "")) = .error d →
      handleUpload (some creds) req extract gen =
        ⟨⟨500, .errorDetail "Vertex AI generation failed" d⟩, true,
          [summaryPrompt (docText.getD ""), keyTermsPrompt (docText.getD ""),
            riskPrompt (docText.getD "")]⟩) := by
  refine ⟨?_, ?_, ?_⟩
  · intro d h1
    simp [handleUpload, hfile, hext, htrim, h1]
  · intro r1 d h1 h2
    simp [handleUpload, hfile, hext, htrim, h1, h2]
  · intro r1 r2 d h1 h2 h3
    simp [handleUpload, hfile, hext, htrim, h1, h2, h3]

/-- C6 witness: a transport failure of the first generation call at a
concrete request yields 500 with the diagnostic detail attached. -/
theorem c6_generation_transport_error_witness :
    handleUpload (some sampleCreds) reqWithFile extractLease genFail =
      ⟨⟨500, .errorDetail "Vertex AI generation failed" "quota exceeded"⟩, true,
        [summaryPrompt "Tenant shall pay rent by the 1st."]⟩ :=
  (c6_generation_transport_error sampleCreds reqWithFile sampleFile extractLease genFail
    (some "Tenant shall pay rent by the 1st.") rfl rfl (by decide)).1
    "quota exceeded" rfl

/-- C7: an extraction transport or remote-side failure is answered 500
with the upstream diagnostic echoed in the detail field, while extraction
succeeding with empty trimmed text is answered 400; the two status codes
are distinct. -/
theorem c7_extraction_error_vs_empty
    (creds : ServiceAccountCredentials) (req : Request) (file : UploadedFile)
    (extract : UploadedFile → Except String (Option String))
    (gen : String → Except String GenResult)
    (hfile : req.file = some file) :
    (∀ d, extract file = .error d →
      handleUpload (some creds) req extract gen =
        ⟨⟨500, .errorDetail "Document AI processing failed" d⟩, true, []⟩) ∧
    (∀ docText, extract file = .ok docText → trimmed (docText.getD "") = "" →
      (handleUpload (some creds) req extract gen).response =
        ⟨400, .errorOnly "Document contained no extractable text."⟩) ∧
    (500 : Nat) ≠ 400 := by
  refine ⟨?_, ?_, by decide⟩
  · intro d hext
    simp [handleUpload, hfile, hext]
  · intro docText hext htrim
    simp [handleUpload, hfile, hext, htrim]

/-- C7 witness: both extraction outcomes at concrete requests, with the
echoed diagnostic on the failure side. -/
theorem c7_extraction_error_vs_empty_witness :
    handleUpload (some sampleCreds) reqWithFile extractFail genOk =
      ⟨⟨500, .errorDetail "Document AI processing failed" "processor unavailable"⟩, true, []⟩ ∧
    (handleUpload (some sampleCreds) reqWithFile extractBlank genOk).response =
      ⟨400, .errorOnly "Document contained no extractable text."⟩ :=
  ⟨(c7_extraction_error_vs_empty sampleCreds reqWithFile sampleFile extractFail genOk rfl).1
      "processor unavailable" rfl,
    (c7_extraction_error_vs_empty sampleCreds reqWithFile sampleFile extractBlank genOk rfl).2.1
      (some "  \n ") rfl (by decide)⟩

end Server

namespace Server

/-- C8: the credential loader first hands the raw blob to the JSON parse;
exactly when that parse fails it performs one further parse, on the blob
with every literal backslash-n sequence replaced by a real newline; if
that second parse also fails the credentials are left unset. -/
theorem c8_credential_parse_policy
    (jsonParse : String → Option ServiceAccountCredentials) (blob : String) :
    ((jsonParse blob).isSome →
      loadCredentials jsonParse blob = (jsonParse blob, [blob])) ∧
    (jsonParse blob = none →
      loadCredentials jsonParse blob =
        (jsonParse (normalizeNewlines blob), [blob, normalizeNewlines blob])) ∧
    ((loadCredentials jsonParse blob).2.length ≤ 2) ∧
    (jsonParse blob = none → jsonParse (normalizeNewlines blob) = none →
      (loadCredentials jsonParse blob).1 = none) := by
  rcases hp : jsonParse blob with _ | c
  · rcases hq : jsonParse (normalizeNewlines blob) with _ | c2 <;>
      simp [loadCredentials, hp, hq]
  · simp [loadCredentials, hp]

/-- C8 witness: a blob rejected raw but accepted after newline repair
loads via exactly two parse attempts, the second on the repaired blob. -/
theorem c8_credential_parse_policy_witness :
    credFixtureParse "a\\nkey" = none ∧
    loadCredentials credFixtureParse "a\\nkey" =
      (some sampleCreds, ["a\\nkey", "a\nkey"]) := by
  have h := (c8_credential_parse_policy credFixtureParse "a\\nkey").2.1 (by decide)
  rw [h]
  exact ⟨by decide, by decide⟩

/-- C9: whenever the pipeline reaches the third generation call, the risk
prompt it issues embeds the extracted text literally as a substring and
names the Risk Item / Description / Severity bullet structure. -/
theorem c9_risk_prompt_embeds_text
    (creds : ServiceAccountCredentials) (req : Request) (file : UploadedFile)
    (extract : UploadedFile → Except String (Option String))
    (gen : String → Except String GenResult)
    (docText : Option String) (r1 r2 : GenResult)
    (hfile : req.file = some file)
    (hext : extract file = .ok docText)
    (htrim : trimmed (docText.getD "") ≠ "")
    (h1 : gen (summaryPrompt (docText.getD "")) = .ok r1)
    (h2 : gen (keyTermsPrompt (docText.getD "")) = .ok r2) :
    (∃ p1 p2, (handleUpload (some creds) req extract gen).genPrompts =
      [p1, p2, riskPrompt (docText.getD "")]) ∧
    substrOf (docText.getD "") (riskPrompt (docText.getD "")) ∧
    substrOf "Risk Item" (riskPrompt (docText.getD "")) ∧
    substrOf "Description" (riskPrompt (docText.getD "")) ∧
    substrOf "Severity" (riskPrompt (docText.getD "")) := by
  refine ⟨?_, substrOf_text_riskPrompt _,
    substrOf_riskPrompt_of_header _ (by decide) _,
    substrOf_riskPrompt_of_header _ (by decide) _,
    substrOf_riskPrompt_of_header _ (by decide) _⟩
  rcases h3 : gen (riskPrompt (docText.getD "")) with d | r3 <;>
    exact ⟨summaryPrompt (docText.getD ""), keyTermsPrompt (docText.getD ""),
      by simp [handleUpload, hfile, hext, htrim, h1, h2, h3]⟩

/-- C9 witness: the risk prompt for the fixed text
`Tenant shall pay rent by the 1st.` embeds that text and the bullet
structure. -/
theorem c9_risk_prompt_embeds_text_witness :
    (∃ p1 p2, (handleUpload (some sampleCreds) reqWithFile extractLease genOk).genPrompts =
      [p1, p2, riskPrompt "Tenant shall pay rent by the 1st."]) ∧
    substrOf "Tenant shall pay rent by the 1st."
      (riskPrompt "Tenant shall pay rent by the 1st.") ∧
    substrOf "Risk Item" (riskPrompt "Tenant shall pay rent by the 1st.") ∧
    substrOf "Description" (riskPrompt "Tenant shall pay rent by the 1st.") ∧
    substrOf "Severity" (riskPrompt "Tenant shall pay rent by the 1st.") :=
  c9_risk_prompt_embeds_text sampleCreds reqWithFile sampleFile extractLease genOk
    (some "Tenant shall pay rent by the 1st.")
    ⟨some ⟨some [⟨some ⟨[⟨some "generated text"⟩]⟩⟩]⟩⟩
    ⟨some ⟨some [⟨some ⟨[⟨some "generated text"⟩]⟩⟩]⟩⟩
    rfl rfl (by decide) rfl rfl

/-- C10: the model addressed by every generation request is the fixed
literal `gemini-2.5-flash-lite` whatever the environment says; two
environments differing only in `VERTEX_MODEL` issue identical generation
requests, and `VERTEX_MODEL` surfaces only in the ping response. -/
theorem c10_model_env_independent (env1 env2 : Env)
    (credentials : Option ServiceAccountCredentials) (req : Request)
    (extract : UploadedFile → Except String (Option String))
    (gen : String → Except String GenResult)
    (hp : env1.PROJECT_ID = env2.PROJECT_ID)
    (_hq : env1.PROCESSOR_ID = env2.PROCESSOR_ID) :
    generativeModelName env1 = "gemini-2.5-flash-lite" ∧
    (∀ r ∈ uploadGenRequests env1 credentials req extract gen,
      r.model = "gemini-2.5-flash-lite") ∧
    uploadGenRequests env1 credentials req extract gen =
      uploadGenRequests env2 credentials req extract gen ∧
    (pingResponse env1).vertexModel = env1.VERTEX_MODEL.getD "gemini-2.5-flash-lite" ∧
    (pingResponse env1).project = (pingResponse env2).project := by
  refine ⟨rfl, ?_, rfl, rfl, ?_⟩
  · intro r hr
    simp [uploadGenRequests] at hr
    obtain ⟨p, -, rfl⟩ := hr
    rfl
  · simp [pingResponse, projectId, hp]

/-- C10 witness: two concrete environments differing only in
`VERTEX_MODEL` issue identical hard-coded-model requests, while ping
reports the configured value. -/
theorem c10_model_env_independent_witness :
    generativeModelName ⟨none, none, some "gemini-2.0-pro"⟩ = "gemini-2.5-flash-lite" ∧
    (∀ r ∈ uploadGenRequests ⟨none, none, some "gemini-2.0-pro"⟩ (some sampleCreds)
        reqWithFile extractLease genOk, r.model = "gemini-2.5-flash-lite") ∧
    uploadGenRequests ⟨none, none, some "gemini-2.0-pro"⟩ (some sampleCreds)
        reqWithFile extractLease genOk =
      uploadGenRequests ⟨none, none, none⟩ (some sampleCreds)
        reqWithFile extractLease genOk ∧
    (pingResponse ⟨none, none, some "gemini-2.0-pro"⟩).vertexModel =
      (some "gemini-2.0-pro").getD "gemini-2.5-flash-lite" ∧
    (pingResponse ⟨none, none, some "gemini-2.0-pro"⟩).project =
      (pingResponse ⟨none, none, none⟩).project :=
  c10_model_env_independent ⟨none, none, some "gemini-2.0-pro"⟩ ⟨none, none, none⟩
    (some sampleCreds) reqWithFile extractLease genOk rfl rfl

end Server
